import Mathlib

/-
Verification development for the rhasspy-microphone-cli-hermes service
(file rhasspymicrophone_cli_hermes/__init__.py).  The Python class
MicrophoneHermesMqtt is embedded shallowly: pure fragments become Lean
functions, subprocess and socket effects become explicit environment
parameters (an Option value models a call that raised an exception), and
the MQTT callback handlers become a step function on an explicit state.
-/

namespace RhasspyMicCli

/-! ## Python string helpers used by the device-list parser -/

/-- Whitespace set of the Python str.strip family (space, tab, newline,
carriage return, vertical tab, form feed). -/
def pyIsSpace (c : Char) : Bool :=
  c = ' ' || c = '\t' || c = '\n' || c = '\r' || c = '\x0b' || c = '\x0c'

/-- Model of Python str.rstrip with default argument. -/
def rstrip (s : String) : String :=
  String.mk ((s.data.reverse.dropWhile pyIsSpace).reverse)

/-- Model of Python str.lstrip with default argument. -/
def lstrip (s : String) : String :=
  String.mk (s.data.dropWhile pyIsSpace)

/-- Model of Python str.strip with default argument. -/
def pyStrip (s : String) : String :=
  lstrip (rstrip s)

/-- Model of re.match applied to a single whitespace character at the start
of the line, as in handle_get_devices. -/
def startsWithSpace (s : String) : Bool :=
  match s.data with
  | [] => false
  | c :: _ => pyIsSpace c

/-! ## Data model (rhasspyhermes message records) -/

/-- Device mode of the rhasspyhermes AudioDevice record. -/
inductive AudioDeviceMode
  | input
  | output
deriving DecidableEq, Repr

/-- The rhasspyhermes AudioDevice record. -/
structure AudioDevice where
  mode : AudioDeviceMode
  id : String
  name : String
  description : String
  working : Option Bool
deriving DecidableEq, Repr

/-- The rhasspyhermes AudioGetDevices request record.  The modes field is
optional in Python; both None and the empty list are falsy there. -/
structure AudioGetDevices where
  modes : Option (List AudioDeviceMode)
  test : Bool
  id : Option String
  siteId : String
deriving DecidableEq, Repr

/-- The rhasspyhermes AudioDevices reply record. -/
structure AudioDevices where
  devices : List AudioDevice
  id : Option String
  siteId : String
deriving DecidableEq, Repr

/-- Constructor arguments of MicrophoneHermesMqtt that the claims touch. -/
structure Config where
  record_command : List String
  sample_rate : Nat
  sample_width : Nat
  channels : Nat
  chunk_size : Nat
  list_command : Option (List String)
  test_command : Option String
  siteId : String
  udp_audio_port : Option Nat
deriving DecidableEq, Repr

/-- Outcomes of the external subprocess calls made while probing devices.
A value of none models a call that raised an exception (spawn failure,
non-zero exit of check_output, read failure); some v models a successful
call returning v.  list_output is the splitlines result of the list
command, test_capture gives the bytes read from the test command spawned
for a given device name. -/
structure ProbeEnv where
  list_output : Option (List String)
  test_capture : String → Option (List Nat)

/-! ## Integer square root

The C sqrt call inside audioop.rms, truncated to an unsigned int, is the
floor square root.  It is modelled by a fuel-driven climb so that concrete
witnesses evaluate inside the kernel; the theorem isqrt_eq_sqrt below
identifies it with the mathematical Nat.sqrt. -/

/-- Climb from candidate r while the next square still fits below n. -/
def isqrt_aux : Nat → Nat → Nat → Nat
  | 0, _, r => r
  | fuel + 1, n, r =>
      if (r + 1) * (r + 1) ≤ n then isqrt_aux fuel n (r + 1) else r

/-- Floor square root, executable by kernel reduction. -/
def isqrt (n : Nat) : Nat := isqrt_aux n n 0

/-! ## audioop model (16-bit signed little-endian samples) -/

/-- Decode two bytes as one signed 16-bit little-endian sample. -/
def toSigned16 (lo hi : Nat) : Int :=
  let v := lo + 256 * hi
  if v < 32768 then (v : Int) else (v : Int) - 65536

/-- Decode a byte buffer as signed 16-bit little-endian samples, as the
audioop functions do with size 2. -/
def samples16 : List Nat → List Int
  | lo :: hi :: rest => toSigned16 lo hi :: samples16 rest
  | _ => []

/-- Sum of squared sample values. -/
def sum_squares (s : List Int) : Nat :=
  (s.map (fun v => (v * v).toNat)).sum

/-- Root mean square of a sample list: floor of the square root of the
mean of squares (0 for an empty list). -/
def rms_samples (s : List Int) : Nat :=
  if s.length = 0 then 0 else isqrt (sum_squares s / s.length)

/-- Model of audioop.rms with size 2 on a byte buffer. -/
def audioop_rms (buf : List Nat) : Nat :=
  rms_samples (samples16 buf)

/-- Saturating clamp to the signed 16-bit range, as audioop.add applies. -/
def clamp16 (v : Int) : Int :=
  if v < -32768 then -32768 else if 32767 < v then 32767 else v

/-- Encode one signed 16-bit sample back to two little-endian bytes. -/
def int16ToBytes (v : Int) : List Nat :=
  [(Int.emod v 256).toNat, (Int.emod (Int.fdiv v 256) 256).toNat]

/-- Model of audioop.add with size 2: samplewise saturating addition. -/
def audioop_add (a b : List Nat) : List Nat :=
  ((List.zipWith (fun x y => clamp16 (x + y)) (samples16 a) (samples16 b)).map
    int16ToBytes).flatten

/-- The bias buffer energy_bytes * (len(buffer) // 2) built in
get_microphone_working: the two little-endian bytes of the (negated)
energy, repeated halfLen times.  The Python shift and mask on a negative
int are floor division and floor modulus. -/
def energy_bytes_pattern (energy : Int) (halfLen : Nat) : List Nat :=
  (List.replicate halfLen
    [(Int.emod energy 256).toNat, (Int.emod (Int.fdiv energy 256) 256).toNat]).flatten

/-- The debiased RMS energy computed by get_microphone_working: negate the
raw RMS, tile its two-byte encoding across the buffer, add samplewise with
saturation, and take the RMS of the result. -/
def debiased_energy (buffer : List Nat) : Nat :=
  audioop_rms (audioop_add buffer
    (energy_bytes_pattern (-(audioop_rms buffer : Int)) (buffer.length / 2)))

/-- Model of get_microphone_working.  The capture argument is the outcome
of spawning the test command and reading from it: none models an exception
(including the assert firing when test_command is absent), which the
function catches and turns into False.  A buffer with an odd byte count
makes audioop.rms raise, which is likewise caught. -/
def get_microphone_working (test_command : Option String)
    (capture : Option (List Nat)) : Bool :=
  match test_command, capture with
  | some _, some buffer =>
      if buffer.length % 2 = 0 then decide (30 < debiased_energy buffer) else false
  | _, _ => false

/-! ## Device-list parsing (handle_get_devices) -/

/-- Loop state of the parsing loop in handle_get_devices. -/
structure ParseState where
  name : Option String
  description : String
  first_mic : Bool
  devices : List AudioDevice
deriving Repr

/-- The working field attached to a finished device: the test is run only
when the request asked for it. -/
def working_for (cfg : Config) (env : ProbeEnv) (test : Bool) (n : String) :
    Option Bool :=
  if test then some (get_microphone_working cfg.test_command (env.test_capture n))
  else none

/-- One iteration of the parsing loop of handle_get_devices over a line of
the list-command output.  An indented line stores a description (the first
one gets the default marker appended); an unindented line flushes the
pending device, if any, and starts a new one. -/
def parse_line (cfg : Config) (env : ProbeEnv) (test : Bool)
    (st : ParseState) (rawLine : String) : ParseState :=
  let line := rstrip rawLine
  if startsWithSpace line then
    let d := pyStrip line
    if st.first_mic then
      { st with description := d ++ "*", first_mic := false }
    else
      { st with description := d }
  else
    match st.name with
    | some n =>
        { st with
          devices := st.devices ++
            [{ mode := AudioDeviceMode.input, id := n, name := n,
               description := st.description,
               working := working_for cfg env test n }],
          name := some (pyStrip line) }
    | none => { st with name := some (pyStrip line) }

/-- Initial loop state: name None, empty description, first_mic True. -/
def initial_parse_state : ParseState :=
  { name := none, description := "", first_mic := true, devices := [] }

/-- The device list built by handle_get_devices: empty when no list
command is configured, empty when running it raised (the exception is
caught before any device is appended), otherwise the parse of its output
lines. -/
def probe_devices (cfg : Config) (env : ProbeEnv) (test : Bool) :
    List AudioDevice :=
  match cfg.list_command with
  | none => []
  | some _ =>
      match env.list_output with
      | none => []
      | some lines =>
          (lines.foldl (parse_line cfg env test) initial_parse_state).devices

/-- True when the request carries a non-empty modes list that does not
contain the input mode; Python treats None and the empty list as falsy, so
only that case takes the early return. -/
def modes_exclude_input (modes : Option (List AudioDeviceMode)) : Bool :=
  match modes with
  | none => false
  | some ms => decide (ms ≠ []) && decide (AudioDeviceMode.input ∉ ms)

/-- Model of handle_get_devices: None on the early mode return, otherwise
an AudioDevices reply echoing the request id and site id. -/
def handle_get_devices (cfg : Config) (env : ProbeEnv)
    (req : AudioGetDevices) : Option AudioDevices :=
  if modes_exclude_input req.modes then none
  else some { devices := probe_devices cfg env req.test,
              id := req.id, siteId := req.siteId }

/-! ## MQTT callback state machine (on_connect, on_message) -/

/-- The mutable state of MicrophoneHermesMqtt touched by the routing
claims: the udp_output flag, initialised to False in the constructor. -/
structure MqttState where
  udp_output : Bool
deriving DecidableEq, Repr

/-- Constructor state: udp_output starts False. -/
def initial_state : MqttState := { udp_output := false }

/-- The transport the publish loop selects for the next chunk. -/
inductive RoutingState
  | bus
  | udp
deriving DecidableEq, Repr

/-- Routing read by publish_chunks: UDP when the udp_output flag is set,
otherwise the MQTT bus topic. -/
def routing (s : MqttState) : RoutingState :=
  if s.udp_output then RoutingState.udp else RoutingState.bus

/-- Model of MicrophoneHermesMqtt._check_siteId: the payload siteId field
defaults to the string default when absent and must equal the configured
site id. -/
def check_siteId (cfg : Config) (payload_siteId : Option String) : Bool :=
  payload_siteId.getD "default" == cfg.siteId

/-- The inbound MQTT messages on_message dispatches on, each carrying the
siteId field of its JSON payload (none when the field is absent). -/
inductive InboundMessage
  | audioGetDevices (payload_siteId : Option String) (req : AudioGetDevices)
  | asrStartListening (payload_siteId : Option String)
  | asrStopListening (payload_siteId : Option String)

/-- Model of on_connect: when a UDP port is configured the udp_output flag
is set to True (subscription bookkeeping and thread starts are effects
outside the state the claims concern). -/
def on_connect (cfg : Config) (s : MqttState) : MqttState :=
  if cfg.udp_audio_port.isSome then { s with udp_output := true } else s

/-- Model of on_message: returns the successor state and the AudioDevices
reply published in response, if any.  AsrStartListening clears udp_output
and AsrStopListening sets it, both only when a UDP port is configured and
the site id matches; AudioGetDevices publishes the handler result exactly
when it is not None. -/
def on_message (cfg : Config) (env : ProbeEnv) (s : MqttState) :
    InboundMessage → MqttState × Option AudioDevices
  | InboundMessage.audioGetDevices p req =>
      if check_siteId cfg p then (s, handle_get_devices cfg env req)
      else (s, none)
  | InboundMessage.asrStartListening p =>
      if cfg.udp_audio_port.isSome && check_siteId cfg p then
        ({ s with udp_output := false }, none)
      else (s, none)
  | InboundMessage.asrStopListening p =>
      if cfg.udp_audio_port.isSome && check_siteId cfg p then
        ({ s with udp_output := true }, none)
      else (s, none)

/-- States reachable from the constructor state through the connect and
message callbacks. -/
inductive ReachableState (cfg : Config) (env : ProbeEnv) : MqttState → Prop
  | start : ReachableState cfg env initial_state
  | connect (s : MqttState) : ReachableState cfg env s →
      ReachableState cfg env (on_connect cfg s)
  | message (s : MqttState) (m : InboundMessage) : ReachableState cfg env s →
      ReachableState cfg env (on_message cfg env s m).1

/-! ## WAV framing (publish_chunks)

The Python wave module, fed one chunk through writeframes and closed,
emits a RIFF header (PCM format tag 1, the configured rate, width and
channel count) followed by the chunk bytes; the two length fields are
patched to the chunk length on close. -/

/-- Two little-endian bytes of a 16-bit value. -/
def le16 (v : Nat) : List Nat :=
  [v % 256, v / 256 % 256]

/-- Four little-endian bytes of a 32-bit value. -/
def le32 (v : Nat) : List Nat :=
  [v % 256, v / 256 % 256, v / 65536 % 256, v / 16777216 % 256]

/-- Byte values of an ASCII tag string. -/
def ascii_bytes (s : String) : List Nat :=
  s.data.map Char.toNat

/-- The WAV bytes publish_chunks produces for one chunk: RIFF chunk with
total size 36 plus the data length, fmt chunk of 16 bytes describing
uncompressed PCM with the configured sample format, then the data chunk
holding the raw bytes. -/
def wav_frame (cfg : Config) (chunk : List Nat) : List Nat :=
  ascii_bytes "RIFF" ++ le32 (36 + chunk.length) ++ ascii_bytes "WAVE" ++
    ascii_bytes "fmt " ++ le32 16 ++ le16 1 ++ le16 cfg.channels ++
    le32 cfg.sample_rate ++
    le32 (cfg.sample_rate * cfg.channels * cfg.sample_width) ++
    le16 (cfg.channels * cfg.sample_width) ++ le16 (cfg.sample_width * 8) ++
    ascii_bytes "data" ++ le32 chunk.length ++ chunk

/-! ## The chunk queue between record and publish_chunks

The unbounded Queue is modelled as a list with its head at the front.
A put event models record enqueuing one read (record skips an empty
read); a get event models publish_chunks taking the next chunk and, when
it is non-empty, framing and emitting it.  The produced, consumed and
emitted fields are history variables recording the order of those
operations. -/

/-- Events on the chunk queue. -/
inductive PipeEvent
  | put (chunk : List Nat)
  | get

/-- Queue contents plus histories of puts, takes and emitted frames. -/
structure PipeState where
  produced : List (List Nat)
  queue : List (List Nat)
  consumed : List (List Nat)
  emitted : List (List Nat)
deriving DecidableEq, Repr

/-- Empty queue, nothing produced or consumed yet. -/
def initial_pipe_state : PipeState :=
  { produced := [], queue := [], consumed := [], emitted := [] }

/-- One queue interaction.  record only puts non-empty reads; a blocking
get on an empty queue makes no progress; publish_chunks drops a falsy
chunk without framing it and frames any other chunk it takes. -/
def pipe_step (cfg : Config) (s : PipeState) : PipeEvent → PipeState
  | PipeEvent.put c =>
      if c = [] then s
      else { s with produced := s.produced ++ [c], queue := s.queue ++ [c] }
  | PipeEvent.get =>
      match s.queue with
      | [] => s
      | c :: rest =>
          if c = [] then { s with queue := rest }
          else { s with queue := rest, consumed := s.consumed ++ [c],
                        emitted := s.emitted ++ [wav_frame cfg c] }

/-- Run a sequence of queue events. -/
def pipe_run (cfg : Config) (s : PipeState) (evs : List PipeEvent) : PipeState :=
  evs.foldl (pipe_step cfg) s

/-! ## The record loop -/

/-- Outcome of one stdout read in the record loop: the bytes obtained
(possibly empty) or an exception. -/
inductive ReadResult
  | bytes (b : List Nat)
  | exn

/-- State of the record loop: chunks enqueued so far and whether the loop
is still running. -/
structure RecorderState where
  queue : List (List Nat)
  alive : Bool
deriving DecidableEq, Repr

/-- Record loop state at thread start. -/
def initial_recorder_state : RecorderState :=
  { queue := [], alive := true }

/-- What one loop iteration did. -/
inductive RecorderAction
  | enqueued
  | slept
  | stopped
  | dead
deriving DecidableEq, Repr

/-- The sleep taken after an empty read, time.sleep(0.01), in seconds. -/
def record_sleep_seconds : Rat := 1 / 100

/-- One iteration of the record loop: a non-empty read is enqueued as one
chunk, an empty read only sleeps and the loop retries, an exception ends
the loop; once dead, the loop never runs again (no restart). -/
def record_step (s : RecorderState) (r : ReadResult) :
    RecorderState × RecorderAction :=
  if s.alive then
    match r with
    | ReadResult.bytes b =>
        if b = [] then (s, RecorderAction.slept)
        else ({ s with queue := s.queue ++ [b] }, RecorderAction.enqueued)
    | ReadResult.exn => ({ s with alive := false }, RecorderAction.stopped)
  else (s, RecorderAction.dead)

/-! ## Concrete configurations and environments for witnesses -/

/-- A configuration with a list command and no UDP port. -/
def sample_config : Config :=
  { record_command := ["arecord", "-r", "16000"], sample_rate := 16000,
    sample_width := 2, channels := 1, chunk_size := 2048,
    list_command := some ["arecord", "-L"], test_command := none,
    siteId := "default", udp_audio_port := none }

/-- The list-command output of the C1 example: two devices, each followed
by one indented description line; every test capture raises. -/
def sample_env : ProbeEnv :=
  { list_output := some ["device1", "  Description A", "device2", "  Description B"],
    test_capture := fun _ => none }

/-- A configuration with a UDP destination port. -/
def udp_config : Config :=
  { record_command := ["arecord"], sample_rate := 16000, sample_width := 2,
    channels := 1, chunk_size := 2048, list_command := none,
    test_command := none, siteId := "default",
    udp_audio_port := some 12101 }

/-- A configuration agreeing with sample_config on the sample format but
differing everywhere else. -/
def alt_config : Config :=
  { record_command := ["parec"], sample_rate := 16000, sample_width := 2,
    channels := 1, chunk_size := 1024, list_command := none,
    test_command := some "sox -d", siteId := "kitchen",
    udp_audio_port := some 1 }

/-! ## Theorems -/

/-- The climb computes Nat.sqrt when started below it with enough fuel. -/
theorem isqrt_aux_eq (fuel : Nat) : ∀ n r : Nat, r ≤ Nat.sqrt n →
    Nat.sqrt n ≤ r + fuel → isqrt_aux fuel n r = Nat.sqrt n := by
  induction fuel with
  | zero =>
      intro n r hr hfuel
      have h0 : isqrt_aux 0 n r = r := rfl
      omega
  | succ f ih =>
      intro n r hr hfuel
      unfold isqrt_aux
      by_cases h : (r + 1) * (r + 1) ≤ n
      · rw [if_pos h]
        exact ih n (r + 1) (Nat.le_sqrt.mpr h) (by omega)
      · rw [if_neg h]
        have hlt : Nat.sqrt n < r + 1 := Nat.sqrt_lt.mpr (by omega)
        omega

/-- The fuel-driven floor square root agrees with Nat.sqrt. -/
theorem isqrt_eq_sqrt (n : Nat) : isqrt n = Nat.sqrt n :=
  isqrt_aux_eq n n 0 (Nat.zero_le _)
    (by simpa using Nat.sqrt_le_self n)

/-- Claim C1: on the listing device1 / Description A / device2 /
Description B the code yields only ONE descriptor, not the two the claim
states: a device is appended only when the next unindented line arrives,
and nothing flushes the still-pending device2 after the loop, so the last
device block of every listing is dropped. -/
theorem c1_parser_drops_last_device :
    probe_devices sample_config sample_env false =
      [{ mode := AudioDeviceMode.input, id := "device1", name := "device1",
         description := "Description A*", working := none }] ∧
    (probe_devices sample_config sample_env false).length ≠ 2 := by
  constructor
  · rfl
  · decide

/-- Claim C2: with a UDP port configured, connection puts routing in UDP;
a matching listening-started message moves it to BUS; a following matching
listening-stopped message moves it back to UDP; and either message with a
non-matching site id leaves the state unchanged. -/
theorem c2_routing_transitions (cfg : Config) (env : ProbeEnv) (p : Nat)
    (site1 site2 : Option String)
    (hport : cfg.udp_audio_port = some p)
    (hmatch : check_siteId cfg site1 = true)
    (hmiss : check_siteId cfg site2 = false) :
    routing (on_connect cfg initial_state) = RoutingState.udp ∧
    routing (on_message cfg env (on_connect cfg initial_state)
      (InboundMessage.asrStartListening site1)).1 = RoutingState.bus ∧
    routing (on_message cfg env
      (on_message cfg env (on_connect cfg initial_state)
        (InboundMessage.asrStartListening site1)).1
      (InboundMessage.asrStopListening site1)).1 = RoutingState.udp ∧
    (∀ s : MqttState,
      (on_message cfg env s (InboundMessage.asrStartListening site2)).1 = s ∧
      (on_message cfg env s (InboundMessage.asrStopListening site2)).1 = s) := by
  refine ⟨?_, ?_, ?_, fun s => ⟨?_, ?_⟩⟩ <;>
    simp [on_connect, on_message, routing, initial_state, hport, hmatch, hmiss]

/-- Witness for claim C2 at a concrete configuration: a payload without a
siteId field matches the default site, the site other does not. -/
theorem c2_routing_transitions_witness :
    routing (on_connect udp_config initial_state) = RoutingState.udp ∧
    routing (on_message udp_config sample_env (on_connect udp_config initial_state)
      (InboundMessage.asrStartListening none)).1 = RoutingState.bus ∧
    routing (on_message udp_config sample_env
      (on_message udp_config sample_env (on_connect udp_config initial_state)
        (InboundMessage.asrStartListening none)).1
      (InboundMessage.asrStopListening none)).1 = RoutingState.udp ∧
    (∀ s : MqttState,
      (on_message udp_config sample_env s
        (InboundMessage.asrStartListening (some "other"))).1 = s ∧
      (on_message udp_config sample_env s
        (InboundMessage.asrStopListening (some "other"))).1 = s) :=
  c2_routing_transitions udp_config sample_env 12101 none (some "other")
    rfl (by decide) (by decide)

/-- Claim C9: udp_output starts False and in every reachable state it is
set only when a UDP port is configured, so without a configured UDP port
routing is always BUS. -/
theorem c9_udp_flag_invariant (cfg : Config) (env : ProbeEnv) (s : MqttState)
    (h : ReachableState cfg env s) :
    initial_state.udp_output = false ∧
    (s.udp_output = true → cfg.udp_audio_port.isSome = true) ∧
    (cfg.udp_audio_port = none → routing s = RoutingState.bus) := by
  refine ⟨rfl, ?_⟩
  induction h with
  | start =>
      exact ⟨fun hflag => by simp [initial_state] at hflag,
        fun _ => by simp [initial_state, routing]⟩
  | connect s hs ih =>
      rcases hcase : cfg.udp_audio_port with _ | q
      · simpa [on_connect, hcase] using ih
      · refine ⟨fun _ => by simp [hcase], fun hnone => ?_⟩
        simp [hcase] at hnone
  | message s m hs ih =>
      cases m with
      | audioGetDevices p req =>
          rcases hcheck : check_siteId cfg p with _ | _ <;>
            simpa [on_message, hcheck] using ih
      | asrStartListening p =>
          rcases hcond : (cfg.udp_audio_port.isSome && check_siteId cfg p)
            with _ | _
          · simpa [on_message, hcond] using ih
          · have hsome : cfg.udp_audio_port.isSome = true := by
              rcases hval : cfg.udp_audio_port.isSome with _ | _
              · rw [hval] at hcond
                simp at hcond
              · rfl
            refine ⟨fun _ => hsome, fun hnone => ?_⟩
            rw [hnone] at hsome
            simp at hsome
      | asrStopListening p =>
          rcases hcond : (cfg.udp_audio_port.isSome && check_siteId cfg p)
            with _ | _
          · simpa [on_message, hcond] using ih
          · have hsome : cfg.udp_audio_port.isSome = true := by
              rcases hval : cfg.udp_audio_port.isSome with _ | _
              · rw [hval] at hcond
                simp at hcond
              · rfl
            refine ⟨fun _ => hsome, fun hnone => ?_⟩
            rw [hnone] at hsome
            simp at hsome

/-- Witness for claim C9 at the constructor state of a concrete
configuration without a UDP port. -/
theorem c9_udp_flag_invariant_witness :
    initial_state.udp_output = false ∧
    (initial_state.udp_output = true → sample_config.udp_audio_port.isSome = true) ∧
    (sample_config.udp_audio_port = none → routing initial_state = RoutingState.bus) :=
  c9_udp_flag_invariant sample_config sample_env initial_state ReachableState.start

/-- Claim C3: a request whose modes list is non-empty and lacks the input
mode gets no reply from handle_get_devices, and on_message publishes
nothing for it whatever the payload site id and current state. -/
theorem c3_modes_excluding_input_no_reply (cfg : Config) (env : ProbeEnv)
    (req : AudioGetDevices) (ms : List AudioDeviceMode)
    (hm : req.modes = some ms) (hne : ms ≠ [])
    (hni : AudioDeviceMode.input ∉ ms) :
    handle_get_devices cfg env req = none ∧
    (∀ (p : Option String) (s : MqttState),
      (on_message cfg env s (InboundMessage.audioGetDevices p req)).2 = none) := by
  have hguard : modes_exclude_input req.modes = true := by
    simp [modes_exclude_input, hm, hne, hni]
  have hnone : handle_get_devices cfg env req = none := by
    simp [handle_get_devices, hguard]
  refine ⟨hnone, fun p s => ?_⟩
  rcases hcheck : check_siteId cfg p with _ | _ <;>
    simp [on_message, hcheck, hnone]

/-- Witness for claim C3: a request asking only for output devices. -/
theorem c3_modes_excluding_input_no_reply_witness :
    handle_get_devices sample_config sample_env
      { modes := some [AudioDeviceMode.output], test := false,
        id := none, siteId := "default" } = none ∧
    (∀ (p : Option String) (s : MqttState),
      (on_message sample_config sample_env s (InboundMessage.audioGetDevices p
        { modes := some [AudioDeviceMode.output], test := false,
          id := none, siteId := "default" })).2 = none) :=
  c3_modes_excluding_input_no_reply sample_config sample_env
    { modes := some [AudioDeviceMode.output], test := false,
      id := none, siteId := "default" }
    [AudioDeviceMode.output] rfl (by decide) (by decide)

/-- Claim C10: a request whose modes field is absent or the empty list is
not rejected: handle_get_devices runs the device listing and returns a
reply echoing the request id and site id. -/
theorem c10_empty_modes_processed (cfg : Config) (env : ProbeEnv)
    (req : AudioGetDevices)
    (h : req.modes = none ∨ req.modes = some []) :
    handle_get_devices cfg env req =
      some { devices := probe_devices cfg env req.test,
             id := req.id, siteId := req.siteId } := by
  have hguard : modes_exclude_input req.modes = false := by
    rcases h with h | h <;> simp [modes_exclude_input, h]
  simp [handle_get_devices, hguard]

/-- Witness for claim C10: the modes field is absent and the reply carries
the parsed device list of the sample environment. -/
theorem c10_empty_modes_processed_witness :
    handle_get_devices sample_config sample_env
      { modes := none, test := false, id := some "req1", siteId := "default" } =
      some { devices := probe_devices sample_config sample_env false,
             id := some "req1", siteId := "default" } :=
  c10_empty_modes_processed sample_config sample_env
    { modes := none, test := false, id := some "req1", siteId := "default" }
    (Or.inl rfl)

/-- A test whose subprocess interaction raised is caught and reported as
False, whatever the configured test command. -/
theorem gm_working_exception (tc : Option String) :
    get_microphone_working tc none = false := by
  cases tc <;> rfl

/-- One parsing step either leaves the device list unchanged or appends
exactly one device whose working field comes from working_for. -/
theorem parse_line_devices (cfg : Config) (env : ProbeEnv) (test : Bool)
    (st : ParseState) (rawLine : String) :
    (parse_line cfg env test st rawLine).devices = st.devices ∨
    ∃ n : String,
      (parse_line cfg env test st rawLine).devices = st.devices ++
        [{ mode := AudioDeviceMode.input, id := n, name := n,
           description := st.description,
           working := working_for cfg env test n }] := by
  unfold parse_line
  rcases hsp : startsWithSpace (rstrip rawLine) with _ | _
  · rcases hn : st.name with _ | n
    · left
      simp [hsp, hn]
    · right
      exact ⟨n, by simp [hsp, hn]⟩
  · left
    rcases hfm : st.first_mic with _ | _ <;> simp [hsp, hfm]

/-- Any property of the working field that working_for guarantees holds of
every device the parsing loop accumulates. -/
theorem parse_working_invariant (cfg : Config) (env : ProbeEnv) (test : Bool)
    (P : Option Bool → Prop) (hP : ∀ n : String, P (working_for cfg env test n)) :
    ∀ (lines : List String) (st : ParseState),
      (∀ d ∈ st.devices, P d.working) →
      ∀ d ∈ (lines.foldl (parse_line cfg env test) st).devices, P d.working := by
  intro lines
  induction lines with
  | nil =>
      intro st hst d hd
      exact hst d hd
  | cons line rest ih =>
      intro st hst
      rw [List.foldl_cons]
      apply ih
      intro d hd
      rcases parse_line_devices cfg env test st line with hsame | ⟨n, happ⟩
      · exact hst d (hsame ▸ hd)
      · rw [happ] at hd
        rcases List.mem_append.mp hd with hold | hnew
        · exact hst d hold
        · rcases List.mem_singleton.mp hnew with rfl
          exact hP n

/-- Claim C5: probing never propagates an error.  A per-device test whose
subprocess raised yields False; handle_get_devices returns a reply for
every request passing the mode guard, whatever the environment (including
a list command that raised, where the list is empty); devices carry None
when no test was requested and False when every test capture raised. -/
theorem c5_probe_error_containment (cfg : Config) (env : ProbeEnv)
    (req : AudioGetDevices)
    (hmode : modes_exclude_input req.modes = false) :
    (∀ tc : Option String, get_microphone_working tc none = false) ∧
    handle_get_devices cfg env req =
      some { devices := probe_devices cfg env req.test,
             id := req.id, siteId := req.siteId } ∧
    (req.test = false →
      ∀ d ∈ probe_devices cfg env req.test, d.working = none) ∧
    (req.test = true → (∀ n : String, env.test_capture n = none) →
      ∀ d ∈ probe_devices cfg env req.test, d.working = some false) := by
  refine ⟨gm_working_exception, by simp [handle_get_devices, hmode], ?_, ?_⟩
  · intro htest d hd
    unfold probe_devices at hd
    rcases hlc : cfg.list_command with _ | lc <;> rw [hlc] at hd
    · simp at hd
    · rcases hlo : env.list_output with _ | lines <;> rw [hlo] at hd
      · simp at hd
      · exact parse_working_invariant cfg env req.test (fun w => w = none)
          (fun n => by simp [working_for, htest]) lines initial_parse_state
          (fun d hd2 => by simp [initial_parse_state] at hd2) d hd
  · intro htest hcap d hd
    unfold probe_devices at hd
    rcases hlc : cfg.list_command with _ | lc <;> rw [hlc] at hd
    · simp at hd
    · rcases hlo : env.list_output with _ | lines <;> rw [hlo] at hd
      · simp at hd
      · exact parse_working_invariant cfg env req.test
          (fun w => w = some false)
          (fun n => by
            simp [working_for, htest, hcap n, gm_working_exception])
          lines initial_parse_state
          (fun d hd2 => by simp [initial_parse_state] at hd2) d hd

/-- Witness for claim C5: a test-requesting request in the sample
environment, where every test capture raises. -/
theorem c5_probe_error_containment_witness :
    (∀ tc : Option String, get_microphone_working tc none = false) ∧
    handle_get_devices sample_config sample_env
      { modes := none, test := true, id := none, siteId := "default" } =
      some { devices := probe_devices sample_config sample_env true,
             id := none, siteId := "default" } ∧
    ((true : Bool) = false →
      ∀ d ∈ probe_devices sample_config sample_env true, d.working = none) ∧
    ((true : Bool) = true → (∀ n : String, sample_env.test_capture n = none) →
      ∀ d ∈ probe_devices sample_config sample_env true, d.working = some false) :=
  c5_probe_error_containment sample_config sample_env
    { modes := none, test := true, id := none, siteId := "default" } rfl

/-- Decoding an all-zero byte buffer yields all-zero samples. -/
theorem samples16_replicate_zero (n : Nat) :
    samples16 (List.replicate (2 * n) 0) = List.replicate n 0 := by
  induction n with
  | zero => rfl
  | succ k ih =>
      have h2 : 2 * (k + 1) = 2 * k + 2 := by ring
      rw [h2]
      show toSigned16 0 0 :: samples16 (List.replicate (2 * k) 0) =
        0 :: List.replicate k 0
      rw [ih]
      rfl

/-- Sum of squares of all-zero samples. -/
theorem sum_squares_replicate_zero (n : Nat) :
    sum_squares (List.replicate n 0) = 0 := by
  simp [sum_squares]

/-- RMS of all-zero samples. -/
theorem rms_samples_replicate_zero (n : Nat) :
    rms_samples (List.replicate n 0) = 0 := by
  unfold rms_samples
  rcases n with _ | m
  · simp
  · rw [List.length_replicate, sum_squares_replicate_zero]
    simp [isqrt, isqrt_aux]

/-- RMS of an all-zero byte buffer. -/
theorem audioop_rms_replicate_zero (n : Nat) :
    audioop_rms (List.replicate (2 * n) 0) = 0 := by
  unfold audioop_rms
  rw [samples16_replicate_zero]
  exact rms_samples_replicate_zero n

/-- Flattening n copies of the byte pair 0, 0. -/
theorem flatten_replicate_zero_pair (n : Nat) :
    (List.replicate n ([0, 0] : List Nat)).flatten = List.replicate (2 * n) 0 := by
  induction n with
  | zero => rfl
  | succ k ih =>
      rw [List.replicate_succ, List.flatten_cons, ih]
      have h2 : 2 * (k + 1) = 2 * k + 2 := by ring
      rw [h2]
      rfl

/-- The bias pattern derived from a zero energy is all zero bytes. -/
theorem energy_bytes_pattern_zero (n : Nat) :
    energy_bytes_pattern 0 n = List.replicate (2 * n) 0 := by
  unfold energy_bytes_pattern
  have h1 : (Int.emod 0 256).toNat = 0 := rfl
  have h2 : (Int.emod (Int.fdiv 0 256) 256).toNat = 0 := rfl
  rw [h1, h2]
  exact flatten_replicate_zero_pair n

/-- Samplewise saturating addition of two all-zero buffers. -/
theorem audioop_add_replicate_zero (n : Nat) :
    audioop_add (List.replicate (2 * n) 0) (List.replicate (2 * n) 0) =
      List.replicate (2 * n) 0 := by
  unfold audioop_add
  rw [samples16_replicate_zero]
  have hc0 : clamp16 0 = 0 := by decide
  have hz : List.zipWith (fun x y => clamp16 (x + y))
      (List.replicate n (0 : Int)) (List.replicate n (0 : Int)) =
      List.replicate n (0 : Int) := by
    induction n with
    | zero => rfl
    | succ k ih => simp [List.replicate_succ, ih, hc0]
  rw [hz]
  have hmap : (List.replicate n (0 : Int)).map int16ToBytes =
      List.replicate n [0, 0] := by
    rw [List.map_replicate]
    rfl
  rw [hmap]
  exact flatten_replicate_zero_pair n

/-- The debiased RMS of an all-zero (silent) buffer is 0. -/
theorem debiased_energy_zero (n : Nat) :
    debiased_energy (List.replicate (2 * n) 0) = 0 := by
  unfold debiased_energy
  rw [audioop_rms_replicate_zero]
  have hhalf : (List.replicate (2 * n) (0 : Nat)).length / 2 = n := by
    rw [List.length_replicate]
    exact Nat.mul_div_cancel_left n (by norm_num)
  rw [hhalf]
  have hneg : -(((0 : Nat) : Int)) = (0 : Int) := by simp
  rw [hneg, energy_bytes_pattern_zero, audioop_add_replicate_zero]
  exact audioop_rms_replicate_zero n

/-- Claim C4: the self-test classifies by debiased RMS against the fixed
threshold 30: an all-zero captured buffer has debiased RMS 0 and is
classified not working; any buffer with debiased RMS above 30 (and a valid
even byte count) is classified working. -/
theorem c4_microphone_classification (t : String) (n : Nat)
    (buffer : List Nat) (heven : buffer.length % 2 = 0)
    (h30 : 30 < debiased_energy buffer) :
    (debiased_energy (List.replicate (2 * n) 0) = 0 ∧
      get_microphone_working (some t) (some (List.replicate (2 * n) 0)) = false) ∧
    get_microphone_working (some t) (some buffer) = true := by
  refine ⟨⟨debiased_energy_zero n, ?_⟩, ?_⟩
  · unfold get_microphone_working
    simp [List.length_replicate, Nat.mul_mod_right, debiased_energy_zero n]
  · unfold get_microphone_working
    simp [heven, h30]

/-- Witness for claim C4: the four-byte buffer holding the samples 100 and
-100 has raw RMS 100, debiases to the samples 0 and -200, and its debiased
RMS 141 exceeds the threshold. -/
theorem c4_microphone_classification_witness :
    ([100, 0, 156, 255] : List Nat).length % 2 = 0 ∧
    30 < debiased_energy [100, 0, 156, 255] ∧
    ((debiased_energy (List.replicate (2 * 1) 0) = 0 ∧
      get_microphone_working (some "arecord") (some (List.replicate (2 * 1) 0)) = false) ∧
    get_microphone_working (some "arecord") (some [100, 0, 156, 255]) = true) :=
  ⟨by decide, by decide,
    c4_microphone_classification "arecord" 1 [100, 0, 156, 255]
      (by decide) (by decide)⟩

/-- Claim C7: the WAV bytes produced for a chunk depend only on the sample
rate, sample width, channel count and the chunk bytes, so two runs that
agree on those produce byte-identical output. -/
theorem c7_framing_deterministic (cfgA cfgB : Config)
    (chunkA chunkB : List Nat)
    (hr : cfgA.sample_rate = cfgB.sample_rate)
    (hw : cfgA.sample_width = cfgB.sample_width)
    (hc : cfgA.channels = cfgB.channels)
    (hb : chunkA = chunkB) :
    wav_frame cfgA chunkA = wav_frame cfgB chunkB := by
  simp [wav_frame, hr, hw, hc, hb]

/-- Witness for claim C7: the two configurations share only the sample
format and still frame the chunk 1, 2, 3 identically. -/
theorem c7_framing_deterministic_witness :
    wav_frame sample_config [1, 2, 3] = wav_frame alt_config [1, 2, 3] :=
  c7_framing_deterministic sample_config alt_config [1, 2, 3] [1, 2, 3]
    rfl rfl rfl rfl

/-- Unfolding one queue event off a run. -/
theorem pipe_run_cons (cfg : Config) (s : PipeState) (e : PipeEvent)
    (rest : List PipeEvent) :
    pipe_run cfg s (e :: rest) = pipe_run cfg (pipe_step cfg s e) rest := rfl

/-- The queue invariant: the put history equals the take history followed
by the queue contents, emitted frames are exactly the framed take history,
and no empty chunk sits in the queue. -/
theorem pipe_run_invariant (cfg : Config) (evs : List PipeEvent) :
    ∀ s : PipeState,
      s.produced = s.consumed ++ s.queue →
      s.emitted = s.consumed.map (wav_frame cfg) →
      [] ∉ s.queue →
      (pipe_run cfg s evs).produced =
          (pipe_run cfg s evs).consumed ++ (pipe_run cfg s evs).queue ∧
        (pipe_run cfg s evs).emitted =
          ((pipe_run cfg s evs).consumed).map (wav_frame cfg) ∧
        [] ∉ (pipe_run cfg s evs).queue := by
  induction evs with
  | nil =>
      intro s h1 h2 h3
      exact ⟨h1, h2, h3⟩
  | cons e rest ih =>
      intro s h1 h2 h3
      rw [pipe_run_cons]
      cases e with
      | put c =>
          by_cases hc : c = []
          · have hstep : pipe_step cfg s (PipeEvent.put c) = s := by
              simp [pipe_step, hc]
            rw [hstep]
            exact ih s h1 h2 h3
          · have hstep : pipe_step cfg s (PipeEvent.put c) =
                { s with produced := s.produced ++ [c],
                         queue := s.queue ++ [c] } := by
              simp [pipe_step, hc]
            rw [hstep]
            apply ih
            · simp [h1, List.append_assoc]
            · exact h2
            · intro hmem
              rcases List.mem_append.mp hmem with hq | hc2
              · exact h3 hq
              · exact hc (List.mem_singleton.mp hc2).symm
      | get =>
          rcases hq : s.queue with _ | ⟨c, qrest⟩
          · have hstep : pipe_step cfg s PipeEvent.get = s := by
              simp [pipe_step, hq]
            rw [hstep]
            exact ih s h1 h2 h3
          · have hcne : c ≠ [] := by
              intro hceq
              apply h3
              rw [hq, hceq]
              exact List.mem_cons_self _ _
            have hstep : pipe_step cfg s PipeEvent.get =
                { s with queue := qrest, consumed := s.consumed ++ [c],
                         emitted := s.emitted ++ [wav_frame cfg c] } := by
              simp [pipe_step, hq, hcne]
            rw [hstep]
            apply ih
            · rw [h1, hq]
              simp
            · simp [h2]
            · intro hmem
              exact h3 (by rw [hq]; exact List.mem_cons_of_mem _ hmem)

/-- Claim C6: along every sequence of queue events starting from the empty
queue, the chunks publish_chunks has taken are an initial segment of the
chunks record enqueued, in the same order, and the emitted frames are
exactly those chunks framed one at a time in that order. -/
theorem c6_fifo_order (cfg : Config) (evs : List PipeEvent) :
    (pipe_run cfg initial_pipe_state evs).produced =
      (pipe_run cfg initial_pipe_state evs).consumed ++
        (pipe_run cfg initial_pipe_state evs).queue ∧
    (pipe_run cfg initial_pipe_state evs).emitted =
      ((pipe_run cfg initial_pipe_state evs).consumed).map (wav_frame cfg) := by
  have h := pipe_run_invariant cfg evs initial_pipe_state rfl rfl
    (by simp [initial_pipe_state])
  exact ⟨h.1, h.2.1⟩

/-- Claim C8: an empty read leaves the record loop state unchanged and
only sleeps (0.01 seconds) before retrying; a non-empty read is enqueued
as one chunk and keeps the loop alive; an exception is the only event that
ends the loop, and a dead loop stays dead on every further read: no
restart. -/
theorem c8_recorder_loop (s : RecorderState) (b : List Nat)
    (halive : s.alive = true) (hb : b ≠ []) :
    record_step s (ReadResult.bytes []) = (s, RecorderAction.slept) ∧
    record_sleep_seconds = 1 / 100 ∧
    record_step s (ReadResult.bytes b) =
      ({ s with queue := s.queue ++ [b] }, RecorderAction.enqueued) ∧
    (record_step s (ReadResult.bytes b)).1.alive = true ∧
    (record_step s ReadResult.exn).1.alive = false ∧
    (∀ (s2 : RecorderState) (r : ReadResult), s2.alive = false →
      record_step s2 r = (s2, RecorderAction.dead)) := by
  refine ⟨?_, rfl, ?_, ?_, ?_, ?_⟩
  · simp [record_step, halive]
  · simp [record_step, halive, hb]
  · simp [record_step, halive, hb, halive]
  · simp [record_step, halive]
  · intro s2 r h
    cases r <;> simp [record_step, h]

/-- Witness for claim C8 at the fresh loop state and the one-byte read 7. -/
theorem c8_recorder_loop_witness :
    record_step initial_recorder_state (ReadResult.bytes []) =
      (initial_recorder_state, RecorderAction.slept) ∧
    record_sleep_seconds = 1 / 100 ∧
    record_step initial_recorder_state (ReadResult.bytes [7]) =
      ({ initial_recorder_state with
          queue := initial_recorder_state.queue ++ [[7]] },
        RecorderAction.enqueued) ∧
    (record_step initial_recorder_state (ReadResult.bytes [7])).1.alive = true ∧
    (record_step initial_recorder_state ReadResult.exn).1.alive = false ∧
    (∀ (s2 : RecorderState) (r : ReadResult), s2.alive = false →
      record_step s2 r = (s2, RecorderAction.dead)) :=
  c8_recorder_loop initial_recorder_state [7] rfl (by decide)

end RhasspyMicCli
